import Mathlib

/-!
Shallow embedding of the `MCPSQLiteManager` class of `mcp_sqllite.py` (the
database-analysis subsystem of the chat_bot repository), together with proofs
about its behaviour.

Modelling conventions:
* Parsed JSON data (what `json.loads` produces and what flows through the
  MCP tool-call layer) is modelled by the inductive type `JVal`.
  A Python `None` returned from a function is modelled by `Option.none`;
  a JSON `null` nested inside data is `JVal.jnull`.
* Python exceptions are modelled by `Except PyExc`; every `try/except` block
  of the source becomes an explicit `M.tryCatch` (or a pure `Except` catch).
* External collaborators (the subprocess pipe round-trip, `json.loads`,
  the LLM HTTP endpoint, `parse_ollama_response`, and the sqlite3 direct
  connection used by `_basic_database_analysis`) are oracles collected in
  `Env` / `DbEnv`; each may fail with an exception.  Theorems quantify over
  these oracles.
* String operations (`lower`, `upper`, `strip`, `replace`, `startswith`,
  the substring test `in`, `join`, slicing) are re-implemented on `List Char`
  by structural recursion so that concrete witnesses evaluate inside the
  kernel.  The repository only ever feeds ASCII keyword data through
  `lower`/`upper`, where the ASCII case map used here agrees with Python.
* Effects are threaded through the monad `M`: state is the JSON-RPC request
  id counter (`self.request_id`), failures are `Except PyExc`, and a trace of
  `Event`s records each outgoing LLM request and each MCP tool call.
-/

/-- Python exception payload (the `str(e)` text). -/
abbrev PyExc := String

/-- Parsed JSON values, as produced by `json.loads` and consumed by the
tool-call layer.  `jobj` keeps insertion order, matching Python dicts. -/
inductive JVal where
  | jnull
  | jbool (b : Bool)
  | jint (n : Int)
  | jstr (s : String)
  | jarr (xs : List JVal)
  | jobj (fs : List (String × JVal))

/-- Python truthiness (`bool(x)`) for `JVal`. -/
def JVal.truthy : JVal → Bool
  | .jnull => false
  | .jbool b => b
  | .jint n => n != 0
  | .jstr s => s.length != 0
  | .jarr xs => !xs.isEmpty
  | .jobj fs => !fs.isEmpty

/-- Truthiness of an optional value (`None` is falsy). -/
def otruthy : Option JVal → Bool
  | none => false
  | some v => v.truthy

/-- Dictionary lookup (`k in d` / `d[k]` on the model's association lists). -/
def jlookup (k : String) : List (String × JVal) → Option JVal
  | [] => none
  | (k', v) :: rest => if k' == k then some v else jlookup k rest

/-- Collapse a JSON `null` to the Python `None` it denotes when a parsed
value is returned from a function. -/
def denull : JVal → Option JVal
  | .jnull => none
  | v => some v

/-- ASCII lower-casing of one character, as `str.lower` acts on ASCII. -/
def ascii_lower_char (c : Char) : Char :=
  if 'A' ≤ c && c ≤ 'Z' then Char.ofNat (c.toNat + 32) else c

/-- ASCII upper-casing of one character, as `str.upper` acts on ASCII. -/
def ascii_upper_char (c : Char) : Char :=
  if 'a' ≤ c && c ≤ 'z' then Char.ofNat (c.toNat - 32) else c

/-- Model of Python `str.lower` (ASCII fragment). -/
def py_lower (s : String) : String := String.mk (s.data.map ascii_lower_char)

/-- Model of Python `str.upper` (ASCII fragment). -/
def py_upper (s : String) : String := String.mk (s.data.map ascii_upper_char)

/-- Python whitespace recognised by `str.strip()`. -/
def is_py_space (c : Char) : Bool :=
  c == ' ' || c == '\t' || c == '\n' || c == '\x0d' || c == '\x0b' || c == '\x0c'

/-- Model of Python `str.strip()`. -/
def py_strip (s : String) : String :=
  String.mk (((s.data.dropWhile is_py_space).reverse.dropWhile is_py_space).reverse)

/-- Boolean contiguous-sublist test, structurally recursive. -/
def infix_of [BEq α] (pat : List α) : List α → Bool
  | [] => pat.isEmpty
  | c :: rest => List.isPrefixOf pat (c :: rest) || infix_of pat rest

/-- Model of the Python substring test `needle in hay`. -/
def str_contains (hay needle : String) : Bool :=
  infix_of needle.data hay.data

/-- Model of Python `hay.startswith(pre)`. -/
def str_starts_with (hay pre : String) : Bool :=
  List.isPrefixOf pre.data hay.data

/-- Worker for `py_replace`; the fuel argument starts at the list length and
bounds the recursion structurally (each step consumes at least one
character when the pattern is non-empty, which is the only way the
repository calls it). -/
def replace_go (pat rep : List Char) : Nat → List Char → List Char
  | _, [] => []
  | 0, l => l
  | Nat.succ fuel, c :: rest =>
    if List.isPrefixOf pat (c :: rest) then
      rep ++ replace_go pat rep fuel (List.drop pat.length (c :: rest))
    else
      c :: replace_go pat rep fuel rest

/-- Model of Python `s.replace(pat, rep)` (left-to-right, non-overlapping;
faithful for the non-empty patterns the source uses). -/
def py_replace (s pat rep : String) : String :=
  String.mk (replace_go pat.data rep.data s.data.length s.data)

/-- Model of Python `sep.join(parts)`. -/
def py_join (sep : String) : List String → String
  | [] => ""
  | [x] => x
  | x :: y :: rest => x ++ sep ++ py_join sep (y :: rest)

/-- Model of Python `s[:n]` on strings. -/
def py_take (s : String) (n : Nat) : String := String.mk (s.data.take n)

mutual

/-- Python `repr` of a parsed-JSON value (used inside container renderings). -/
def pyRepr : JVal → String
  | .jnull => "None"
  | .jbool true => "True"
  | .jbool false => "False"
  | .jint n => toString n
  | .jstr s => "\x27" ++ s ++ "\x27"
  | .jarr xs => "[" ++ pyReprList xs ++ "]"
  | .jobj fs => "\x7b" ++ pyReprObj fs ++ "\x7d"

/-- Comma-joined `repr`s of list elements. -/
def pyReprList : List JVal → String
  | [] => ""
  | [x] => pyRepr x
  | x :: y :: rest => pyRepr x ++ ", " ++ pyReprList (y :: rest)

/-- Comma-joined `repr(k): repr(v)` renderings of dict entries. -/
def pyReprObj : List (String × JVal) → String
  | [] => ""
  | [(k, v)] => "\x27" ++ k ++ "\x27: " ++ pyRepr v
  | (k, v) :: e :: rest => "\x27" ++ k ++ "\x27: " ++ pyRepr v ++ ", " ++ pyReprObj (e :: rest)

end

/-- Python `str(x)` of a parsed-JSON value (as used by f-string interpolation
in the source: differs from `repr` only on top-level strings). -/
def pyStr : JVal → String
  | .jstr s => s
  | v => pyRepr v

/-- Python `len(x)`; raises `TypeError` on unsized values. -/
def pyLen : JVal → Except PyExc Nat
  | .jarr xs => Except.ok xs.length
  | .jstr s => Except.ok s.length
  | .jobj fs => Except.ok fs.length
  | _ => Except.error "TypeError: object has no len()"

/-- Python `x[0]`; strings index to one-character strings, dicts raise
`KeyError`, other values `TypeError`. -/
def pyIndex0 : JVal → Except PyExc JVal
  | .jarr (x :: _) => Except.ok x
  | .jarr [] => Except.error "IndexError: list index out of range"
  | .jstr s =>
    match s.data with
    | c :: _ => Except.ok (JVal.jstr (String.mk [c]))
    | [] => Except.error "IndexError: string index out of range"
  | .jobj _ => Except.error "KeyError: 0"
  | _ => Except.error "TypeError: not subscriptable"

/-- Python iteration (`for x in v`): lists yield elements, strings yield
one-character strings, dicts yield their keys; anything else raises. -/
def pyIter : JVal → Except PyExc (List JVal)
  | .jarr xs => Except.ok xs
  | .jstr s => Except.ok (s.data.map (fun c => JVal.jstr (String.mk [c])))
  | .jobj fs => Except.ok (fs.map (fun kv => JVal.jstr kv.1))
  | _ => Except.error "TypeError: not iterable"

/-- Python `x[:10]` slicing as used by `_format_query_results`. -/
def pySlice10 : JVal → Except PyExc (List JVal)
  | .jarr xs => Except.ok (xs.take 10)
  | .jstr s => Except.ok ((s.data.take 10).map (fun c => JVal.jstr (String.mk [c])))
  | _ => Except.error "TypeError: unsliceable"

/-- Observable effects of one `execute_database_query` run: each outgoing LLM
chat request (identified by the question embedded in the prompt) and each
MCP tool call. -/
inductive Event where
  | llmCall (question : String)
  | toolCall (name : String) (args : List (String × JVal))

/-- Effect monad of the manager: state is the JSON-RPC request-id counter,
results may be a Python exception, and a trace of `Event`s is collected. -/
def M (α : Type) : Type := Nat → Except PyExc α × Nat × List Event

/-- Run an `M` computation from a given request-id counter. -/
def M.run (x : M α) (n : Nat) : Except PyExc α × Nat × List Event := x n

/-- Monadic return: no state change, no events. -/
def M.pure (a : α) : M α := fun n => (Except.ok a, n, [])

/-- Monadic bind; on an exception the continuation is skipped but state
changes and events made so far persist, matching Python control flow. -/
def M.bind (x : M α) (f : α → M β) : M β := fun n =>
  match x n with
  | (Except.ok a, n', t) =>
    match f a n' with
    | (r, n'', t') => (r, n'', t ++ t')
  | (Except.error e, n', t) => (Except.error e, n', t)

instance : Monad M where
  pure := M.pure
  bind := M.bind

/-- Lift a fallible external call into `M`. -/
def M.lift (x : Except PyExc α) : M α := fun n => (x, n, [])

/-- Raise a Python exception. -/
def M.raise (e : PyExc) : M α := fun n => (Except.error e, n, [])

/-- Record an observable event. -/
def M.emit (ev : Event) : M Unit := fun n => (Except.ok (), n, [ev])

/-- Model of `self._get_request_id()`: increment and return the counter. -/
def M.nextId : M Nat := fun n => (Except.ok (n + 1), n + 1, [])

/-- Model of a Python `try/except` block: state changes and events that
happened before the exception persist. -/
def M.tryCatch (x : M α) (h : PyExc → M α) : M α := fun n =>
  match x n with
  | (Except.ok a, n', t) => (Except.ok a, n', t)
  | (Except.error e, n', t) =>
    match h e n' with
    | (r, n'', t') => (r, n'', t ++ t')

/-- Outcome of the LLM HTTP POST (`requests.post`): the source only inspects
the status code; the body is consumed through `parse_ollama_response`,
modelled as a separate oracle. -/
structure LlmResponse where
  statusCode : Nat

/-- Oracles for the direct sqlite3 access of `_basic_database_analysis`.
Each field is the combined outcome of the corresponding
`cursor.execute`/`fetch` step.  `recentActivity` rows are
`(date, sessions)` pairs and `activeSessions` rows are
`(id, message_count, last_active)` triples, typed after the schema
(`sessions.id` is TEXT, counts are integers). -/
structure DbEnv where
  connect : Except PyExc Unit
  sessionCount : Except PyExc Int
  messageCount : Except PyExc Int
  recentActivity : Except PyExc (List (String × Int))
  activeSessions : Except PyExc (List (String × Int × String))

/-- Snapshot of the manager's fields and its external collaborators during
one call.  `hasProcess`/`hasStdin`/`serverRunning` mirror
`self.server_process`, its `stdin`, and `self.server_running`; `wire` is
the subprocess round trip of `_send_mcp_request` (`json.dumps` +
`stdin.write` + `drain` + `stdout.readline`), returning the raw response
line (`none` models an empty read); `jsonParse` is `json.loads`; `llm` is
`requests.post` to the Ollama chat endpoint with the prompt built from the
given question; `parseOllama` is `parse_ollama_response` (its body lives in
`ollama_utils.py`; the claims only quantify over its produced candidate, so
it is kept as an oracle). -/
structure Env where
  hasProcess : Bool
  hasStdin : Bool
  serverRunning : Bool
  wire : JVal → Except PyExc (Option String)
  jsonParse : String → Except PyExc JVal
  llm : String → Except PyExc LlmResponse
  parseOllama : LlmResponse → Except PyExc String
  db : DbEnv

/-- Default of the `DATABASE_NAME` environment variable. -/
def DATABASE_NAME : String := "chat_history.db"

/-- Model of `_send_mcp_request`: serialize and write the request, read one
line, parse it; any failure (absent process or stdin, transport exception,
empty line, JSON decode error) yields `None`. -/
def send_mcp_request (env : Env) (request : JVal) : M (Option JVal) :=
  M.tryCatch
    (if env.hasProcess && env.hasStdin then do
      let line? ← M.lift (env.wire request)
      match line? with
      | some line => do
        let v ← M.lift (env.jsonParse (py_strip line))
        M.pure (denull v)
      | none => M.pure none
    else M.pure none)
    (fun _ => M.pure none)

/-- Unwrapping of a tool-call `result` payload inside `_call_mcp_tool`: a
dict carrying a non-empty `content` array has its first block's `text`
JSON-parsed, falling back to the raw text; any other shape is returned
as-is.  A non-dict first block makes `.get` raise `AttributeError`, which
is not caught by the inner `except` clause. -/
def unwrap_tool_result (env : Env) (result : JVal) : M (Option JVal) :=
  match result with
  | JVal.jobj fs =>
    match jlookup "content" fs with
    | some (JVal.jarr (c0 :: _)) =>
      match c0 with
      | JVal.jobj cfs =>
        match (jlookup "text" cfs).getD (JVal.jstr "") with
        | JVal.jstr s =>
          match env.jsonParse s with
          | Except.ok v => M.pure (denull v)
          | Except.error _ => M.pure (some (JVal.jstr s))
        | other => M.pure (denull other)
      | _ => M.raise "AttributeError: no attribute get"
    | some _ => M.pure (denull result)
    | none => M.pure (denull result)
  | _ => M.pure (denull result)

/-- Model of `_call_mcp_tool`: build a `tools/call` envelope with the next
request id, send it, and accept any response object carrying a `result`
field (the response's own `id` is never inspected); every failure is
caught and yields `None`. -/
def call_mcp_tool (env : Env) (name : String) (args : List (String × JVal)) : M (Option JVal) :=
  M.tryCatch
    (do
      let rid ← M.nextId
      M.emit (Event.toolCall name args)
      let response ← send_mcp_request env (JVal.jobj
        [("jsonrpc", JVal.jstr "2.0"), ("id", JVal.jint rid),
         ("method", JVal.jstr "tools/call"),
         ("params", JVal.jobj [("name", JVal.jstr name), ("arguments", JVal.jobj args)])])
      match response with
      | some (JVal.jobj fs) =>
        match jlookup "result" fs with
        | some result => unwrap_tool_result env result
        | none => M.pure none
      | _ => M.pure none)
    (fun _ => M.pure none)

/-- Keyword list of `is_database_query` (source lines 137-142). -/
def db_keywords : List String :=
  ["database", "db", "sql", "query", "table", "sessions", "messages",
   "conversation", "chat history", "statistics", "stats", "count",
   "analyze", "analysis", "data", "search history", "most active",
   "recent sessions", "message count", "user activity", "trends"]

/-- Model of `is_database_query`: any keyword occurring as a substring of
the lowercased message. -/
def is_database_query (message : String) : Bool :=
  db_keywords.any (fun keyword => str_contains (py_lower message) keyword)

/-- Keyword list of `_is_metadata_query` (source lines 215-218). -/
def metadata_keywords : List String :=
  ["table", "tables", "schema", "structure", "columns", "database structure",
   "what tables", "how many tables", "table names", "table list"]

/-- Model of `_is_metadata_query`. -/
def is_metadata_query (question : String) : Bool :=
  metadata_keywords.any (fun keyword => str_contains (py_lower question) keyword)

/-- Python `any(phrase in s for phrase in phrases)`. -/
def contains_any (s : String) (phrases : List String) : Bool :=
  phrases.any (fun p => str_contains s p)

/-- Code-fence stripping of the LLM reply inside
`_generate_sql_from_question` (source lines 323-327). -/
def fence_strip (s : String) : String :=
  if str_starts_with s "```sql" then py_strip (py_replace (py_replace s "```sql" "") "```" "")
  else if str_starts_with s "```" then py_strip (py_replace s "```" "")
  else s

/-- The safety filter of `_generate_sql_from_question`
(source lines 330-335). -/
def sql_safety_ok (sql : String) : Bool :=
  str_starts_with (py_upper sql) "SELECT" &&
  !(str_contains (py_upper sql) "DROP") &&
  !(str_contains (py_upper sql) "DELETE") &&
  !(str_contains (py_upper sql) "UPDATE") &&
  !(str_contains (py_upper sql) "INSERT") &&
  sql != "INVALID"

/-- Model of `_generate_sql_from_question`: one blocking LLM request for the
prompt built from the question (the prompt is a fixed template around the
question, so the oracle receives the question), then extraction, stripping
and the safety filter; on a non-200 status, an unsafe candidate or any
exception it yields `None`. -/
def generate_sql_from_question (env : Env) (question : String) : M (Option String) :=
  M.tryCatch
    (do
      M.emit (Event.llmCall question)
      let resp ← M.lift (env.llm question)
      if resp.statusCode == 200 then do
        let raw ← M.lift (env.parseOllama resp)
        let sql := fence_strip (py_strip raw)
        if sql_safety_ok sql then M.pure (some sql) else M.pure none
      else M.pure none)
    (fun _ => M.pure none)

/-- Model of `_extract_query_results`: a dict's `results` value, a bare
list, or an empty list. -/
def extract_query_results (query_response : Option JVal) : JVal :=
  match query_response with
  | some (JVal.jobj fs) =>
    match jlookup "results" fs with
    | some v => v
    | none => JVal.jarr []
  | some (JVal.jarr xs) => JVal.jarr xs
  | _ => JVal.jarr []

/-- Model of `_extract_query_result` (single value for a column name). -/
def extract_query_result (query_response : Option JVal) (column_name : String) : Option JVal :=
  match query_response with
  | some (JVal.jobj fs) =>
    match jlookup "results" fs with
    | some (JVal.jarr rs) =>
      match rs with
      | JVal.jobj r0 :: _ => denull ((jlookup column_name r0).getD JVal.jnull)
      | _ :: _ => none
      | [] => none
    | some _ =>
      match jlookup column_name fs with
      | some v => denull v
      | none => none
    | none =>
      match jlookup column_name fs with
      | some v => denull v
      | none => none
  | _ => none

/-- Rendering of one result row inside `_format_query_results`. -/
def render_row : JVal → String
  | JVal.jobj fs => "  • " ++ py_join ", " (fs.map (fun kv => kv.1 ++ ": " ++ pyStr kv.2))
  | row => "  • " ++ pyStr row

/-- Body of `_format_query_results` before its catch-all handler. -/
def format_query_results_core (result : Option JVal) : Except PyExc String := do
  let data := extract_query_results result
  if !data.truthy then Except.ok "No data found."
  else do
    let n ← pyLen data
    let one_one ←
      if n == 1 then do
        let d0 ← pyIndex0 data
        let l0 ← pyLen d0
        Except.ok (l0 == 1)
      else Except.ok false
    if one_one then do
      let d0 ← pyIndex0 data
      match d0 with
      | JVal.jobj ((_, v) :: _) => Except.ok ("**Result:** " ++ pyStr v)
      | JVal.jobj [] => Except.error "IndexError: list index out of range"
      | _ => Except.error "AttributeError: no attribute values"
    else do
      let items ← pySlice10 data
      let lines := items.map render_row
      let lines := if n > 10 then lines ++ ["  ... and " ++ toString (n - 10) ++ " more rows"] else lines
      Except.ok (py_join "\n" lines)

/-- Model of `_format_query_results` with its catch-all handler. -/
def format_query_results (result : Option JVal) : String :=
  match format_query_results_core result with
  | Except.ok s => s
  | Except.error e => "Results available but formatting failed: " ++ e

/-- Model of `_handle_metadata_query`: the three phrase-triggered branches
over the `list_tables` and `db_info` MCP tools; everything else (and any
exception) yields `None`. -/
def handle_metadata_query (env : Env) (user_question : String) : M (Option String) :=
  M.tryCatch
    (do
      let ql := py_lower user_question
      if contains_any ql ["how many tables", "count tables", "number of tables"] then do
        let tables ← call_mcp_tool env "list_tables" []
        if otruthy tables then do
          let countStr ←
            match tables with
            | some (JVal.jobj fs) =>
              match jlookup "tables" fs with
              | some v => do
                let k ← M.lift (pyLen v)
                M.pure (toString k)
              | none => M.pure "Unknown"
            | some (JVal.jarr xs) => M.pure (toString xs.length)
            | _ => M.pure "Unknown"
          M.pure (some ("📊 **Answer to: \"" ++ user_question ++ "\"**\n\n**Result:** " ++
            countStr ++ " tables\n\n💡 *Used MCP list_tables tool*"))
        else M.pure none
      else if contains_any ql ["what tables", "list tables", "table names", "show tables"] then do
        let tables ← call_mcp_tool env "list_tables" []
        if otruthy tables then do
          let table_list : JVal :=
            match tables with
            | some (JVal.jobj fs) => (jlookup "tables" fs).getD (JVal.jarr [])
            | some (JVal.jarr xs) => JVal.jarr xs
            | _ => JVal.jarr []
          if table_list.truthy then do
            let items ← M.lift (pyIter table_list)
            let formatted := items.enum.map (fun p =>
              match p.2 with
              | JVal.jobj fs =>
                match jlookup "name" fs with
                | some nm => "  " ++ toString (p.1 + 1) ++ ". " ++ pyStr nm
                | none => "  " ++ toString (p.1 + 1) ++ ". " ++ pyStr p.2
              | t => "  " ++ toString (p.1 + 1) ++ ". " ++ pyStr t)
            M.pure (some ("📊 **Answer to: \"" ++ user_question ++
              "\"**\n\n**Tables in your database:**\n" ++ py_join "\n" formatted ++
              "\n\n💡 *Used MCP list_tables tool*"))
          else M.pure none
        else M.pure none
      else if contains_any ql ["database info", "db info", "database structure"] then do
        let db_info ← call_mcp_tool env "db_info" []
        if otruthy db_info then do
          let formatted_info :=
            match db_info with
            | some (JVal.jobj fs) => fs.map (fun kv => "  • " ++ kv.1 ++ ": " ++ pyStr kv.2)
            | _ => []
          M.pure (some ("📊 **Answer to: \"" ++ user_question ++
            "\"**\n\n**Database Information:**\n" ++ py_join "\n" formatted_info ++
            "\n\n💡 *Used MCP db_info tool*"))
        else M.pure none
      else M.pure none)
    (fun _ => M.pure none)

/-- The NL-to-SQL stage of `_handle_natural_language_query` (source lines
187-207): generate SQL, execute it via the `query` tool, and either format
the result with header and transparency footer or report "no results". -/
def handle_nlq_sql_stage (env : Env) (user_question : String) : M (Option String) := do
  let sql? ← generate_sql_from_question env user_question
  match sql? with
  | some sql =>
    if sql.length != 0 then do
      let result ← call_mcp_tool env "query" [("sql", JVal.jstr sql), ("values", JVal.jarr [])]
      if otruthy result then
        M.pure (some ("📊 **Answer to: \"" ++ user_question ++ "\"**\n\n" ++
          format_query_results result ++ "\n\n💡 *Generated SQL: `" ++ sql ++ "`*"))
      else
        M.pure (some ("❌ No results found for: \"" ++ user_question ++ "\""))
    else M.pure none
  | none => M.pure none

/-- Model of `_handle_natural_language_query`: metadata branch first, then
the NL-to-SQL stage; any exception yields `None`. -/
def handle_natural_language_query (env : Env) (user_question : String) : M (Option String) :=
  M.tryCatch
    (do
      let meta? ←
        if is_metadata_query user_question then handle_metadata_query env user_question
        else M.pure none
      match meta? with
      | some m =>
        if m.length != 0 then M.pure (some m)
        else handle_nlq_sql_stage env user_question
      | none => handle_nlq_sql_stage env user_question)
    (fun _ => M.pure none)

/-- The canned recent-activity SQL of `_get_mcp_database_stats`
(source lines 434-441, reproduced including its whitespace). -/
def recent_activity_sql : String :=
  "\n                SELECT DATE(s.last_activity) as date, COUNT(*) as sessions\n                FROM sessions s \n                WHERE s.last_activity > datetime(\x27now\x27, \x27-7 days\x27)\n                GROUP BY DATE(s.last_activity) \n                ORDER BY date DESC \n                LIMIT 5\n            "

/-- The canned most-active-sessions SQL of `_get_mcp_database_stats`
(source lines 454-462, reproduced including its whitespace). -/
def active_sessions_sql : String :=
  "\n                SELECT s.id, COUNT(m.id) as message_count, \n                       datetime(s.last_activity) as last_active\n                FROM sessions s \n                LEFT JOIN messages m ON s.id = m.session_id \n                GROUP BY s.id \n                ORDER BY message_count DESC \n                LIMIT 3\n            "

/-- The database-information section of `_get_mcp_database_stats`
(source lines 386-394). -/
def stats_db_info_section (db_info : Option JVal) : List String :=
  if otruthy db_info then
    ["📊 **Database Information (via MCP):**", "Database: " ++ DATABASE_NAME] ++
    (match db_info with
     | some (JVal.jobj fs) =>
       (fs.filter (fun kv => kv.1 != "tables")).map (fun kv => kv.1 ++ ": " ++ pyStr kv.2)
     | _ => [])
  else []

/-- The table-list section of `_get_mcp_database_stats` (source lines
397-410); joining the stringified entries of a non-iterable truthy
`tables` value raises, and that exception propagates to the caller. -/
def stats_tables_section (results : List String) (tables : Option JVal) : M (List String) :=
  if otruthy tables then
    let table_list : JVal :=
      match tables with
      | some (JVal.jobj fs) =>
        match jlookup "tables" fs with
        | some v => v
        | none => JVal.jarr []
      | some (JVal.jarr xs) => JVal.jarr xs
      | some (JVal.jstr s) => JVal.jarr [JVal.jstr s]
      | _ => JVal.jarr []
    if table_list.truthy then do
      let items ← M.lift (pyIter table_list)
      M.pure (results ++ ["\n🗂️ **Tables:** " ++ py_join ", " (items.map pyStr)])
    else M.pure results
  else M.pure results

/-- The single-value sections of `_get_mcp_database_stats` (source lines
413-430): append the extracted column when present (an `is not None`
check, so a zero count is still shown). -/
def stats_count_section (results : List String) (stat : Option JVal) (column label : String) :
    List String :=
  if otruthy stat then
    match extract_query_result stat column with
    | some v => results ++ [label ++ pyStr v]
    | none => results
  else results

/-- The recent-activity section of `_get_mcp_database_stats` (source lines
433-450). -/
def stats_activity_section (results : List String) (recent_activity : Option JVal) :
    M (List String) :=
  if otruthy recent_activity then
    let activity_data := extract_query_results recent_activity
    if activity_data.truthy then do
      let rows ← M.lift (pyIter activity_data)
      M.pure (results ++ ["\n📅 **Recent Activity (last 7 days):**"] ++
        rows.filterMap (fun row =>
          match row with
          | JVal.jobj fs =>
            match jlookup "date" fs, jlookup "sessions" fs with
            | some d, some s => some ("  • " ++ pyStr d ++ ": " ++ pyStr s ++ " sessions")
            | _, _ => none
          | _ => none))
    else M.pure results
  else M.pure results

/-- The most-active-sessions section of `_get_mcp_database_stats` (source
lines 453-472); `enumerate` numbers every row, matching or not. -/
def stats_sessions_section (results : List String) (active_sessions : Option JVal) :
    M (List String) :=
  if otruthy active_sessions then
    let sessions_data := extract_query_results active_sessions
    if sessions_data.truthy then do
      let rows ← M.lift (pyIter sessions_data)
      M.pure (results ++ ["\n🔥 **Most Active Sessions:**"] ++
        rows.enum.filterMap (fun p =>
          match p.2 with
          | JVal.jobj fs =>
            match jlookup "id" fs, jlookup "message_count" fs, jlookup "last_active" fs with
            | some i, some mc, some la =>
              some ("  " ++ toString (p.1 + 1) ++ ". Session " ++ (py_take (pyStr i) 8 ++ "...") ++
                ": " ++ pyStr mc ++ " messages (last active: " ++ pyStr la ++ ")")
            | _, _, _ => none
          | _ => none))
    else M.pure results
  else M.pure results

/-- The closing of `_get_mcp_database_stats` (source lines 474-477): the MCP
marker line is appended only to a non-empty report. -/
def stats_finalize (results : List String) : M (List String) :=
  if results.isEmpty then M.pure results
  else M.pure (results ++ ["\n✅ *Analysis via MCP SQLite server*"])

/-- Model of `_get_mcp_database_stats`: the fixed sequence of MCP tool calls
(db info, table list, three canned queries), each section appended only
when its call produced data, with the MCP marker line appended to a
non-empty report. -/
def get_mcp_database_stats (env : Env) : M (List String) := do
  let db_info ← call_mcp_tool env "db_info" []
  let results : List String := stats_db_info_section db_info
  let tables ← call_mcp_tool env "list_tables" []
  let results ← stats_tables_section results tables
  let session_stats ← call_mcp_tool env "query"
    [("sql", JVal.jstr "SELECT COUNT(*) as total_sessions FROM sessions"), ("values", JVal.jarr [])]
  let results := stats_count_section results session_stats "total_sessions" "\n📈 **Total Sessions:** "
  let message_stats ← call_mcp_tool env "query"
    [("sql", JVal.jstr "SELECT COUNT(*) as total_messages FROM messages"), ("values", JVal.jarr [])]
  let results := stats_count_section results message_stats "total_messages" "💬 **Total Messages:** "
  let recent_activity ← call_mcp_tool env "query"
    [("sql", JVal.jstr recent_activity_sql), ("values", JVal.jarr [])]
  let results ← stats_activity_section results recent_activity
  let active_sessions ← call_mcp_tool env "query"
    [("sql", JVal.jstr active_sessions_sql), ("values", JVal.jarr [])]
  let results ← stats_sessions_section results active_sessions
  stats_finalize results

/-- The degraded-mode marker line appended by `_basic_database_analysis`. -/
def basic_mode_marker : String := "\n⚠️ *Using basic mode - MCP server not available*"

/-- Body of `_basic_database_analysis` before its catch-all handler. -/
def basic_database_analysis_core (db : DbEnv) : Except PyExc String := do
  db.connect
  let session_count ← db.sessionCount
  let message_count ← db.messageCount
  let recent ← db.recentActivity
  let active ← db.activeSessions
  let results := ["📊 **Total Sessions:** " ++ toString session_count,
                  "💬 **Total Messages:** " ++ toString message_count]
  let results := results ++
    (if recent.isEmpty then []
     else "\n📅 **Recent Activity (last 7 days):**" ::
       recent.map (fun p => "  • " ++ p.1 ++ ": " ++ toString p.2 ++ " sessions"))
  let results := results ++
    (if active.isEmpty then []
     else "\n🔥 **Most Active Sessions:**" ::
       active.enum.map (fun p =>
         "  " ++ toString (p.1 + 1) ++ ". Session " ++ (py_take p.2.1 8 ++ "...") ++ ": " ++
         toString p.2.2.1 ++ " messages (last active: " ++ p.2.2.2 ++ ")"))
  let results := results ++ [basic_mode_marker]
  Except.ok (py_join "\n" results)

/-- Model of `_basic_database_analysis`: direct sqlite access with all
failures converted to a generic analysis-error string. -/
def basic_database_analysis (db : DbEnv) : String :=
  match basic_database_analysis_core db with
  | Except.ok s => s
  | Except.error e => "Error analyzing database: " ++ e

/-- The message returned when the MCP statistics report is empty. -/
def no_mcp_results_msg : String := "No database analysis results available via MCP."

/-- The default-analysis tail of `execute_database_query` (source lines
163-169): join the canned statistics or report their absence. -/
def mcp_stats_report (env : Env) : M String := do
  let results ← get_mcp_database_stats env
  if results.isEmpty then M.pure no_mcp_results_msg
  else M.pure (py_join "\n" results)

/-- Model of `execute_database_query`: direct persistence analysis when the
subprocess is not running; otherwise the natural-language path for a
non-blank question, then the canned statistics, with any exception falling
back to the direct analysis. -/
def execute_database_query (env : Env) (user_question : Option String) : M String :=
  if !env.serverRunning then M.pure (basic_database_analysis env.db)
  else
    M.tryCatch
      (do
        let custom? ←
          match user_question with
          | some q =>
            if q.length != 0 && (py_strip q).length != 0 then
              handle_natural_language_query env q
            else M.pure none
          | none => M.pure none
        match custom? with
        | some r =>
          if r.length != 0 then M.pure r
          else mcp_stats_report env
        | none => mcp_stats_report env)
      (fun _ => M.pure (basic_database_analysis env.db))

/-- Handle of the spawned MCP subprocess as `stop_server` sees it; the flag
records whether `terminate()` has been requested. -/
structure Proc where
  terminated : Bool

/-- The lifecycle fields of `MCPSQLiteManager` touched by `stop_server`. -/
structure LifecycleState where
  serverProcess : Option Proc
  serverRunning : Bool

/-- Model of `stop_server`: terminate the subprocess and clear the running
flag when a process handle exists; otherwise do nothing.  (`terminate()`
on an already-terminated managed child is a harmless re-signal.) -/
def stop_server (s : LifecycleState) : LifecycleState :=
  match s.serverProcess with
  | some p => { s with serverProcess := some { p with terminated := true }, serverRunning := false }
  | none => s
-- ## Proof infrastructure

theorem run_pure (a : α) (n : Nat) : M.run (M.pure a) n = (Except.ok a, n, []) := rfl

theorem run_bind (x : M α) (f : α → M β) (n : Nat) :
    M.run (x >>= f) n =
      match M.run x n with
      | (Except.ok a, n', t) =>
        match M.run (f a) n' with
        | (r, n'', t') => (r, n'', t ++ t')
      | (Except.error e, n', t) => (Except.error e, n', t) := rfl

theorem run_tryCatch (x : M α) (h : PyExc → M α) (n : Nat) :
    M.run (M.tryCatch x h) n =
      match M.run x n with
      | (Except.ok a, n', t) => (Except.ok a, n', t)
      | (Except.error e, n', t) =>
        match M.run (h e) n' with
        | (r, n'', t') => (r, n'', t ++ t') := rfl

theorem send_mcp_request_run (env : Env) (req : JVal) (n : Nat) :
    ∃ r : Option JVal, send_mcp_request env req n = (Except.ok r, n, []) := by
  unfold send_mcp_request
  by_cases hp : (env.hasProcess && env.hasStdin) = true
  · rcases hw : env.wire req with e | l
    · exact ⟨none, by simp [M.tryCatch, M.run, M.bind, M.pure, M.lift, hp, hw, Bind.bind]⟩
    · rcases l with _ | ⟨line⟩
      · exact ⟨none, by simp [M.tryCatch, M.run, M.bind, M.pure, M.lift, hp, hw, Bind.bind]⟩
      · rcases hj : env.jsonParse (py_strip line) with e | v
        · exact ⟨none, by simp [M.tryCatch, M.run, M.bind, M.pure, M.lift, hp, hw, hj, Bind.bind]⟩
        · exact ⟨denull v, by simp [M.tryCatch, M.run, M.bind, M.pure, M.lift, hp, hw, hj, Bind.bind]⟩
  · exact ⟨none, by simp [M.tryCatch, M.run, M.bind, M.pure, M.lift, hp, Bind.bind]⟩

theorem unwrap_tool_result_run (env : Env) (result : JVal) (n : Nat) :
    ∃ r : Except PyExc (Option JVal), unwrap_tool_result env result n = (r, n, []) := by
  rcases result with _ | b | i | s | xs | fs
  case jnull => exact ⟨_, rfl⟩
  case jbool => exact ⟨_, rfl⟩
  case jint => exact ⟨_, rfl⟩
  case jstr => exact ⟨_, rfl⟩
  case jarr => exact ⟨_, rfl⟩
  case jobj =>
    rcases hc : jlookup "content" fs with _ | v
    · exact ⟨_, by simp only [unwrap_tool_result, hc]; rfl⟩
    · rcases v with _ | b | i | s | xs | cfs0
      case jarr =>
        rcases xs with _ | ⟨c0, tail⟩
        · exact ⟨_, by simp only [unwrap_tool_result, hc]; rfl⟩
        · rcases c0 with _ | b | i | s | ys | cfs
          case jobj =>
            rcases ht : (jlookup "text" cfs).getD (JVal.jstr "") with _ | b | i | s | ys | zs
            case jstr =>
              rcases hj : env.jsonParse s with e | v
              · exact ⟨_, by simp only [unwrap_tool_result, hc, ht, hj]; rfl⟩
              · exact ⟨_, by simp only [unwrap_tool_result, hc, ht, hj]; rfl⟩
            all_goals exact ⟨_, by simp only [unwrap_tool_result, hc, ht]; rfl⟩
          all_goals exact ⟨_, by simp only [unwrap_tool_result, hc]; rfl⟩
      all_goals exact ⟨_, by simp only [unwrap_tool_result, hc]; rfl⟩

theorem call_mcp_tool_run (env : Env) (name : String) (args : List (String × JVal)) (n : Nat) :
    ∃ r : Option JVal, call_mcp_tool env name args n = (Except.ok r, n + 1, [Event.toolCall name args]) := by
  unfold call_mcp_tool
  obtain ⟨resp, hresp⟩ := send_mcp_request_run env (JVal.jobj
    [("jsonrpc", JVal.jstr "2.0"), ("id", JVal.jint (n + 1)),
     ("method", JVal.jstr "tools/call"),
     ("params", JVal.jobj [("name", JVal.jstr name), ("arguments", JVal.jobj args)])]) (n + 1)
  rcases resp with _ | v
  · exact ⟨none, by simp [M.tryCatch, M.bind, M.nextId, M.emit, M.pure, Bind.bind, hresp]⟩
  · rcases v with _ | b | i | s | xs | fs
    · exact ⟨none, by simp [M.tryCatch, M.bind, M.nextId, M.emit, M.pure, Bind.bind, hresp]⟩
    · exact ⟨none, by simp [M.tryCatch, M.bind, M.nextId, M.emit, M.pure, Bind.bind, hresp]⟩
    · exact ⟨none, by simp [M.tryCatch, M.bind, M.nextId, M.emit, M.pure, Bind.bind, hresp]⟩
    · exact ⟨none, by simp [M.tryCatch, M.bind, M.nextId, M.emit, M.pure, Bind.bind, hresp]⟩
    · exact ⟨none, by simp [M.tryCatch, M.bind, M.nextId, M.emit, M.pure, Bind.bind, hresp]⟩
    · rcases hlk : jlookup "result" fs with _ | result
      · exact ⟨none, by simp [M.tryCatch, M.bind, M.nextId, M.emit, M.pure, Bind.bind, hresp, hlk]⟩
      · obtain ⟨ur, hur⟩ := unwrap_tool_result_run env result (n + 1)
        rcases ur with e | r
        · exact ⟨none, by simp [M.tryCatch, M.bind, M.nextId, M.emit, M.pure, Bind.bind, hresp, hlk, hur]⟩
        · exact ⟨r, by simp [M.tryCatch, M.bind, M.nextId, M.emit, M.pure, Bind.bind, hresp, hlk, hur]⟩

theorem generate_sql_run (env : Env) (q : String) (n : Nat) :
    ∃ r : Option String, generate_sql_from_question env q n = (Except.ok r, n, [Event.llmCall q]) := by
  unfold generate_sql_from_question
  rcases hl : env.llm q with e | resp
  · exact ⟨none, by simp [M.tryCatch, M.bind, M.emit, M.pure, M.lift, Bind.bind, hl]⟩
  · by_cases hs : (resp.statusCode == 200) = true
    · rcases hp : env.parseOllama resp with e | raw
      · exact ⟨none, by simp [M.tryCatch, M.bind, M.emit, M.pure, M.lift, Bind.bind, hl, hs, hp]⟩
      · by_cases hok : sql_safety_ok (fence_strip (py_strip raw)) = true
        · exact ⟨some (fence_strip (py_strip raw)),
            by simp [M.tryCatch, M.bind, M.emit, M.pure, M.lift, Bind.bind, hl, hs, hp, hok]⟩
        · exact ⟨none, by simp [M.tryCatch, M.bind, M.emit, M.pure, M.lift, Bind.bind, hl, hs, hp, hok]⟩
    · exact ⟨none, by simp [M.tryCatch, M.bind, M.emit, M.pure, M.lift, Bind.bind, hl, hs]⟩

theorem generate_sql_eq (env : Env) (q : String) (n : Nat) (resp : LlmResponse) (raw : String)
    (h1 : env.llm q = Except.ok resp) (h2 : resp.statusCode = 200)
    (h3 : env.parseOllama resp = Except.ok raw) :
    generate_sql_from_question env q n =
      (Except.ok (if sql_safety_ok (fence_strip (py_strip raw)) then
        some (fence_strip (py_strip raw)) else none), n, [Event.llmCall q]) := by
  unfold generate_sql_from_question
  by_cases hok : sql_safety_ok (fence_strip (py_strip raw)) = true
  · simp [M.tryCatch, M.bind, M.emit, M.pure, M.lift, Bind.bind, h1, h2, h3, hok]
  · simp [M.tryCatch, M.bind, M.emit, M.pure, M.lift, Bind.bind, h1, h2, h3, hok]

theorem mem_trace_bind {α β : Type} {x : M α} {f : α → M β} {P : Event → Prop} (n : Nat)
    (hx : ∀ e ∈ (x n).2.2, P e)
    (hf : ∀ a n', ∀ e ∈ (f a n').2.2, P e) :
    ∀ e ∈ ((x >>= f) n).2.2, P e := by
  intro e he
  rcases hx2 : x n with ⟨r, n', t⟩
  have ht : ∀ e ∈ t, P e := by intro e' he'; apply hx; rw [hx2]; exact he'
  rcases r with er | a
  · have hred : ((x >>= f) n).2.2 = t := by
      show (M.bind x f n).2.2 = t
      unfold M.bind; rw [hx2]
    rw [hred] at he; exact ht e he
  · rcases hf2 : f a n' with ⟨r2, n2, t2⟩
    have hred : ((x >>= f) n).2.2 = t ++ t2 := by
      show (M.bind x f n).2.2 = t ++ t2
      unfold M.bind; rw [hx2]; dsimp only; rw [hf2]
    rw [hred] at he
    rcases List.mem_append.mp he with h | h
    · exact ht e h
    · exact hf a n' e (by rw [hf2]; exact h)

theorem mem_trace_tryCatch {α : Type} {x : M α} {h : PyExc → M α} {P : Event → Prop} (n : Nat)
    (hx : ∀ e ∈ (x n).2.2, P e)
    (hh : ∀ ex n', ∀ e ∈ (h ex n').2.2, P e) :
    ∀ e ∈ (M.tryCatch x h n).2.2, P e := by
  intro e he
  rcases hx2 : x n with ⟨r, n', t⟩
  have ht : ∀ e ∈ t, P e := by intro e' he'; apply hx; rw [hx2]; exact he'
  rcases r with er | a
  · rcases hh2 : h er n' with ⟨r2, n2, t2⟩
    have hred : (M.tryCatch x h n).2.2 = t ++ t2 := by
      unfold M.tryCatch; rw [hx2]; dsimp only; rw [hh2]
    rw [hred] at he
    rcases List.mem_append.mp he with hm | hm
    · exact ht e hm
    · exact hh er n' e (by rw [hh2]; exact hm)
  · have hred : (M.tryCatch x h n).2.2 = t := by
      unfold M.tryCatch; rw [hx2]
    rw [hred] at he; exact ht e he

theorem mem_trace_pure {α : Type} {P : Event → Prop} (a : α) (n : Nat) :
    ∀ e ∈ (M.pure a n).2.2, P e := by
  intro e he; simp [M.pure] at he

theorem mem_trace_lift {α : Type} {P : Event → Prop} (x : Except PyExc α) (n : Nat) :
    ∀ e ∈ (M.lift x n).2.2, P e := by
  intro e he; simp [M.lift] at he

theorem mem_trace_call {P : Event → Prop} (env : Env) (name : String)
    (args : List (String × JVal)) (n : Nat) (hp : P (Event.toolCall name args)) :
    ∀ e ∈ (call_mcp_tool env name args n).2.2, P e := by
  intro e he
  obtain ⟨r, hr⟩ := call_mcp_tool_run env name args n
  rw [hr] at he
  simp at he
  rw [he]; exact hp

theorem trace_nil_bind {α β : Type} {x : M α} {f : α → M β} (n : Nat) (hx : (x n).2.2 = [])
    (hf : ∀ a n', (f a n').2.2 = []) : ((x >>= f) n).2.2 = [] := by
  show (M.bind x f n).2.2 = []
  unfold M.bind
  rcases hx2 : x n with ⟨r, n', t⟩
  have ht : t = [] := by simpa [hx2] using hx
  subst ht
  rcases r with e | a
  · rfl
  · dsimp only
    rcases hf2 : f a n' with ⟨r2, n2, t2⟩
    have ht2 : t2 = [] := by simpa [hf2] using hf a n'
    subst ht2
    rfl

theorem mem_of_trace_nil {α : Type} {x : M α} {P : Event → Prop} (n : Nat)
    (h : (x n).2.2 = []) : ∀ e ∈ (x n).2.2, P e := by
  rw [h]; intro e he; exact absurd he (List.not_mem_nil e)

theorem handle_metadata_query_trace (P : Event → Prop) (env : Env) (q : String) (n : Nat)
    (hlt : P (Event.toolCall "list_tables" []))
    (hdb : P (Event.toolCall "db_info" [])) :
    ∀ e ∈ (handle_metadata_query env q n).2.2, P e := by
  unfold handle_metadata_query
  apply mem_trace_tryCatch
  · by_cases h1 : contains_any (py_lower q) ["how many tables", "count tables", "number of tables"] = true
    · rw [if_pos h1]
      apply mem_trace_bind
      · exact mem_trace_call env "list_tables" [] n hlt
      · intro tables n'
        by_cases h2 : otruthy tables = true
        · rw [if_pos h2]
          rcases tables with _ | v
          · exact mem_of_trace_nil n' rfl
          · rcases v with _ | b | i | s | xs | fs
            · exact mem_of_trace_nil n' rfl
            · exact mem_of_trace_nil n' rfl
            · exact mem_of_trace_nil n' rfl
            · exact mem_of_trace_nil n' rfl
            · exact mem_of_trace_nil n' rfl
            · rcases hlk : jlookup "tables" fs with _ | v2
              · simp only [hlk]; exact mem_of_trace_nil n' rfl
              · simp only [hlk]
                exact mem_of_trace_nil n' (trace_nil_bind n' rfl (fun k n2 => rfl))
        · rw [if_neg h2]; exact mem_of_trace_nil n' rfl
    · rw [if_neg h1]
      by_cases h2 : contains_any (py_lower q) ["what tables", "list tables", "table names", "show tables"] = true
      · rw [if_pos h2]
        apply mem_trace_bind
        · exact mem_trace_call env "list_tables" [] n hlt
        · intro tables n'
          by_cases h3 : otruthy tables = true
          · rw [if_pos h3]
            by_cases h4 : (match tables with
                | some (JVal.jobj fs) => (jlookup "tables" fs).getD (JVal.jarr [])
                | some (JVal.jarr xs) => JVal.jarr xs
                | _ => JVal.jarr []).truthy = true
            · rw [if_pos h4]
              exact mem_of_trace_nil n' (trace_nil_bind n' rfl (fun items n2 => rfl))
            · rw [if_neg h4]; exact mem_of_trace_nil n' rfl
          · rw [if_neg h3]; exact mem_of_trace_nil n' rfl
      · rw [if_neg h2]
        by_cases h3 : contains_any (py_lower q) ["database info", "db info", "database structure"] = true
        · rw [if_pos h3]
          apply mem_trace_bind
          · exact mem_trace_call env "db_info" [] n hdb
          · intro db_info n'
            by_cases h4 : otruthy db_info = true
            · rw [if_pos h4]; exact mem_of_trace_nil n' rfl
            · rw [if_neg h4]; exact mem_of_trace_nil n' rfl
        · rw [if_neg h3]; exact mem_of_trace_nil n rfl
  · intro ex nx; exact mem_of_trace_nil nx rfl

theorem py_join_append_singleton (sep : String) (l : List String) (m : String) (h : l ≠ []) :
    py_join sep (l ++ [m]) = py_join sep l ++ sep ++ m := by
  induction l with
  | nil => cases h rfl
  | cons x xs ih =>
    cases xs with
    | nil => rfl
    | cons y ys =>
      have hih := ih (by simp)
      simp only [List.cons_append] at hih ⊢
      simp only [py_join]
      rw [hih]
      simp [String.append_assoc]

theorem sql_safety_nonempty (s : String) (h : sql_safety_ok s = true) : s.length ≠ 0 := by
  unfold sql_safety_ok at h
  simp only [Bool.and_eq_true] at h
  have hpre := h.1.1.1.1.1
  unfold str_starts_with at hpre
  have hp := List.isPrefixOf_iff_prefix.mp hpre
  have hlen := hp.length_le
  have hs : (py_upper s).data.length = s.length := by
    show (s.data.map ascii_upper_char).length = s.length
    rw [List.length_map]
    rfl
  rw [hs] at hlen
  have h6 : ("SELECT".data).length = 6 := rfl
  rw [h6] at hlen
  intro hc
  omega

theorem call_mcp_tool_none_of_wire_none (env : Env) (name : String) (args : List (String × JVal))
    (n : Nat) (hw : ∀ req, env.wire req = Except.ok none) :
    call_mcp_tool env name args n = (Except.ok none, n + 1, [Event.toolCall name args]) := by
  unfold call_mcp_tool send_mcp_request
  by_cases hp : (env.hasProcess && env.hasStdin) = true
  · simp [M.tryCatch, M.bind, M.nextId, M.emit, M.pure, M.lift, Bind.bind, hp, hw]
  · simp [M.tryCatch, M.bind, M.nextId, M.emit, M.pure, M.lift, Bind.bind, hp]

theorem execute_not_running (env : Env) (q? : Option String) (n : Nat)
    (hrun : env.serverRunning = false) :
    execute_database_query env q? n = (Except.ok (basic_database_analysis env.db), n, []) := by
  unfold execute_database_query
  rw [hrun]
  rfl

theorem execute_always_ok (env : Env) (q? : Option String) (n : Nat) :
    ∃ s n' t, execute_database_query env q? n = (Except.ok s, n', t) := by
  unfold execute_database_query
  cases hrun : env.serverRunning
  · exact ⟨basic_database_analysis env.db, n, [], rfl⟩
  · set body : M String := (do
      let custom? ←
        match q? with
        | some q =>
          if q.length != 0 && (py_strip q).length != 0 then
            handle_natural_language_query env q
          else M.pure none
        | none => M.pure none
      match custom? with
      | some r =>
        if r.length != 0 then M.pure r
        else mcp_stats_report env
      | none => mcp_stats_report env) with hbody
    rcases hb : body n with ⟨r, n', t⟩
    rcases r with e | a
    · refine ⟨basic_database_analysis env.db, n', t, ?_⟩
      show M.tryCatch body (fun _ => M.pure (basic_database_analysis env.db)) n = _
      unfold M.tryCatch
      rw [hb]
      simp [M.pure]
    · refine ⟨a, n', t, ?_⟩
      show M.tryCatch body (fun _ => M.pure (basic_database_analysis env.db)) n = _
      unfold M.tryCatch
      rw [hb]

theorem trace_nil_ite {α : Type} {c : Prop} [Decidable c] {x y : M α} (n : Nat)
    (hx : (x n).2.2 = []) (hy : (y n).2.2 = []) : ((if c then x else y) n).2.2 = [] := by
  by_cases h : c
  · rw [if_pos h]; exact hx
  · rw [if_neg h]; exact hy

theorem hnlq_of_metadata (env : Env) (q : String) (n : Nat) (ans : String) (n' : Nat) (t : List Event)
    (hmeta : is_metadata_query q = true)
    (hans : handle_metadata_query env q n = (Except.ok (some ans), n', t))
    (hne : ans.length ≠ 0) :
    handle_natural_language_query env q n = (Except.ok (some ans), n', t) := by
  unfold handle_natural_language_query
  have hne2 : (ans.length != 0) = true := by simpa using hne
  simp [M.tryCatch, M.bind, M.pure, Bind.bind, hmeta, hans, hne2, hne]

theorem hnlq_of_stage (env : Env) (q : String) (n : Nat) (a : Option String) (n' : Nat) (t : List Event)
    (hmeta : is_metadata_query q = false)
    (hstage : handle_nlq_sql_stage env q n = (Except.ok a, n', t)) :
    handle_natural_language_query env q n = (Except.ok a, n', t) := by
  unfold handle_natural_language_query
  simp [M.tryCatch, M.bind, M.pure, Bind.bind, hmeta, hstage]

theorem execute_custom (env : Env) (q : String) (n : Nat) (r : String) (n' : Nat) (t : List Event)
    (hrun : env.serverRunning = true)
    (hq : (q.length != 0 && (py_strip q).length != 0) = true)
    (hc : handle_natural_language_query env q n = (Except.ok (some r), n', t))
    (hr : r.length ≠ 0) :
    execute_database_query env (some q) n = (Except.ok r, n', t) := by
  unfold execute_database_query
  have hr2 : (r.length != 0) = true := by simpa using hr
  simp [M.tryCatch, M.bind, M.pure, Bind.bind, hrun, hq, hc, hr2, hr]

theorem sql_stage_no_result (env : Env) (q : String) (n : Nat) (resp : LlmResponse) (raw : String)
    (h1 : env.llm q = Except.ok resp) (h2 : resp.statusCode = 200)
    (h3 : env.parseOllama resp = Except.ok raw)
    (hsafe : sql_safety_ok (fence_strip (py_strip raw)) = true)
    (hw : ∀ req, env.wire req = Except.ok none) :
    handle_nlq_sql_stage env q n =
      (Except.ok (some ("❌ No results found for: \"" ++ q ++ "\"")), n + 1,
       [Event.llmCall q,
        Event.toolCall "query" [("sql", JVal.jstr (fence_strip (py_strip raw))), ("values", JVal.jarr [])]]) := by
  unfold handle_nlq_sql_stage
  have hgen := generate_sql_eq env q n resp raw h1 h2 h3
  have hlen : ((fence_strip (py_strip raw)).length != 0) = true := by
    simpa using sql_safety_nonempty _ hsafe
  have hcall := call_mcp_tool_none_of_wire_none env "query"
    [("sql", JVal.jstr (fence_strip (py_strip raw))), ("values", JVal.jarr [])] n hw
  simp [M.bind, M.pure, Bind.bind, hgen, hsafe, hlen, hcall, otruthy]

theorem execute_blank (env : Env) (q? : Option String) (n : Nat)
    (hrun : env.serverRunning = true)
    (hblank : q? = none ∨ ∃ s, q? = some s ∧ (s.length = 0 ∨ (py_strip s).length = 0)) :
    execute_database_query env q? n =
      (match get_mcp_database_stats env n with
       | (Except.ok results, n', t) =>
         (Except.ok (if results.isEmpty then no_mcp_results_msg else py_join "\n" results), n', t)
       | (Except.error _, n', t) => (Except.ok (basic_database_analysis env.db), n', t)) := by
  rcases hblank with h | ⟨s, hq, hz⟩
  · subst h
    unfold execute_database_query mcp_stats_report
    rcases hs : get_mcp_database_stats env n with ⟨r, n', t⟩
    rcases r with e | results
    · simp [M.tryCatch, M.bind, M.pure, Bind.bind, hrun, hs]
    · by_cases he : results = []
      · simp [M.tryCatch, M.bind, M.pure, Bind.bind, hrun, hs, he]
      · simp [M.tryCatch, M.bind, M.pure, Bind.bind, hrun, hs, he]
  · subst hq
    have hcond : (s.length != 0 && (py_strip s).length != 0) = false := by
      rcases hz with h0 | h0 <;> simp [h0]
    unfold execute_database_query mcp_stats_report
    rcases hs : get_mcp_database_stats env n with ⟨r, n', t⟩
    rcases r with e | results
    · simp [M.tryCatch, M.bind, M.pure, Bind.bind, hrun, hcond, hs]
    · by_cases he : results = []
      · simp [M.tryCatch, M.bind, M.pure, Bind.bind, hrun, hcond, hs, he]
      · simp [M.tryCatch, M.bind, M.pure, Bind.bind, hrun, hcond, hs, he]

theorem stats_tables_section_trace_nil (results : List String) (tables : Option JVal) (n : Nat) :
    (stats_tables_section results tables n).2.2 = [] := by
  unfold stats_tables_section
  exact trace_nil_ite n (trace_nil_ite n (trace_nil_bind n rfl (fun a m => rfl)) rfl) rfl

theorem stats_activity_section_trace_nil (results : List String) (recent : Option JVal) (n : Nat) :
    (stats_activity_section results recent n).2.2 = [] := by
  unfold stats_activity_section
  exact trace_nil_ite n (trace_nil_ite n (trace_nil_bind n rfl (fun a m => rfl)) rfl) rfl

theorem stats_sessions_section_trace_nil (results : List String) (active : Option JVal) (n : Nat) :
    (stats_sessions_section results active n).2.2 = [] := by
  unfold stats_sessions_section
  exact trace_nil_ite n (trace_nil_ite n (trace_nil_bind n rfl (fun a m => rfl)) rfl) rfl

theorem stats_finalize_trace_nil (results : List String) (n : Nat) :
    (stats_finalize results n).2.2 = [] := by
  unfold stats_finalize
  exact trace_nil_ite n rfl rfl

theorem get_mcp_database_stats_trace (P : Event → Prop) (env : Env) (n : Nat)
    (hp : ∀ name args, P (Event.toolCall name args)) :
    ∀ e ∈ (get_mcp_database_stats env n).2.2, P e := by
  unfold get_mcp_database_stats
  apply mem_trace_bind
  · exact mem_trace_call env "db_info" [] n (hp _ _)
  · intro a1 m1
    apply mem_trace_bind
    · exact mem_trace_call env "list_tables" [] m1 (hp _ _)
    · intro a2 m2
      apply mem_trace_bind
      · exact mem_of_trace_nil m2 (stats_tables_section_trace_nil _ a2 m2)
      · intro a3 m3
        apply mem_trace_bind
        · exact mem_trace_call env "query" _ m3 (hp _ _)
        · intro a4 m4
          apply mem_trace_bind
          · exact mem_trace_call env "query" _ m4 (hp _ _)
          · intro a5 m5
            apply mem_trace_bind
            · exact mem_trace_call env "query" _ m5 (hp _ _)
            · intro a6 m6
              apply mem_trace_bind
              · exact mem_of_trace_nil m6 (stats_activity_section_trace_nil _ a6 m6)
              · intro a7 m7
                apply mem_trace_bind
                · exact mem_trace_call env "query" _ m7 (hp _ _)
                · intro a8 m8
                  apply mem_trace_bind
                  · exact mem_of_trace_nil m8 (stats_sessions_section_trace_nil _ a8 m8)
                  · intro a9 m9
                    exact mem_of_trace_nil m9 (stats_finalize_trace_nil _ m9)

theorem infix_of_iff {α : Type} [BEq α] [LawfulBEq α] (pat l : List α) :
    infix_of pat l = true ↔ List.IsInfix pat l := by
  induction l with
  | nil => simp [infix_of, List.isEmpty_iff, List.infix_nil]
  | cons c rest ih =>
    simp [infix_of, List.infix_cons_iff, List.isPrefixOf_iff_prefix, ih, Bool.or_eq_true]

theorem str_contains_iff (hay needle : String) :
    str_contains hay needle = true ↔ List.IsInfix needle.data hay.data := by
  unfold str_contains
  exact infix_of_iff needle.data hay.data

theorem sql_safety_ok_iff (s : String) :
    sql_safety_ok s = true ↔
      (str_starts_with (py_upper s) "SELECT" = true
       ∧ ¬ List.IsInfix "DROP".data (py_upper s).data
       ∧ ¬ List.IsInfix "DELETE".data (py_upper s).data
       ∧ ¬ List.IsInfix "UPDATE".data (py_upper s).data
       ∧ ¬ List.IsInfix "INSERT".data (py_upper s).data
       ∧ s ≠ "INVALID") := by
  unfold sql_safety_ok
  simp only [Bool.and_eq_true, Bool.not_eq_true', bne_iff_ne, ne_eq, and_assoc]
  constructor
  · rintro ⟨h1, h2, h3, h4, h5, h6⟩
    refine ⟨h1, ?_, ?_, ?_, ?_, h6⟩
    · exact fun hinf => by simpa [h2] using (str_contains_iff _ _).mpr hinf
    · exact fun hinf => by simpa [h3] using (str_contains_iff _ _).mpr hinf
    · exact fun hinf => by simpa [h4] using (str_contains_iff _ _).mpr hinf
    · exact fun hinf => by simpa [h5] using (str_contains_iff _ _).mpr hinf
  · rintro ⟨h1, h2, h3, h4, h5, h6⟩
    refine ⟨h1, ?_, ?_, ?_, ?_, h6⟩ <;>
      rw [← Bool.not_eq_true, str_contains_iff] <;> assumption

/-- Claim C1: for every SQL candidate produced by the LLM (after code-fence
stripping and trimming), `_generate_sql_from_question` returns the
statement exactly when it begins case-insensitively with `SELECT`,
contains none of `DROP`, `DELETE`, `UPDATE`, `INSERT` case-insensitively,
and is not the literal string `INVALID`; any violation yields `None`. -/
theorem c1_safety_filter (env : Env) (question : String) (n : Nat)
    (resp : LlmResponse) (raw : String)
    (h1 : env.llm question = Except.ok resp)
    (h2 : resp.statusCode = 200)
    (h3 : env.parseOllama resp = Except.ok raw) :
    (generate_sql_from_question env question n
        = (Except.ok (some (fence_strip (py_strip raw))), n, [Event.llmCall question])
      ∨ generate_sql_from_question env question n
        = (Except.ok (none : Option String), n, [Event.llmCall question]))
    ∧ (generate_sql_from_question env question n
        = (Except.ok (some (fence_strip (py_strip raw))), n, [Event.llmCall question])
      ↔ (str_starts_with (py_upper (fence_strip (py_strip raw))) "SELECT" = true
         ∧ ¬ List.IsInfix "DROP".data (py_upper (fence_strip (py_strip raw))).data
         ∧ ¬ List.IsInfix "DELETE".data (py_upper (fence_strip (py_strip raw))).data
         ∧ ¬ List.IsInfix "UPDATE".data (py_upper (fence_strip (py_strip raw))).data
         ∧ ¬ List.IsInfix "INSERT".data (py_upper (fence_strip (py_strip raw))).data
         ∧ fence_strip (py_strip raw) ≠ "INVALID")) := by
  have hgen := generate_sql_eq env question n resp raw h1 h2 h3
  by_cases hok : sql_safety_ok (fence_strip (py_strip raw)) = true
  · refine ⟨Or.inl (by rw [hgen, if_pos hok]), ?_, ?_⟩
    · intro _; exact (sql_safety_ok_iff _).mp hok
    · intro _; rw [hgen, if_pos hok]
  · refine ⟨Or.inr (by rw [hgen, if_neg hok]), ?_, ?_⟩
    · intro heq
      rw [hgen, if_neg hok] at heq
      simp at heq
    · intro hcond
      exact absurd ((sql_safety_ok_iff _).mpr hcond) hok

/-- Claim C2: for every outcome of the collaborators (including exceptions
anywhere), `execute_database_query` returns a text string and never
propagates an exception to its caller. -/
theorem c2_execute_total (env : Env) (q? : Option String) (n : Nat) :
    ∃ s n' t, execute_database_query env q? n = (Except.ok s, n', t) :=
  execute_always_ok env q? n

/-- Claim C8: `stop_server` is idempotent from every reachable state
(a reachable state has a process handle whenever the running flag is set):
a second call changes nothing, raises nothing, and afterwards
`server_running` is false. -/
theorem c8_stop_idempotent (s : LifecycleState)
    (hinv : s.serverRunning = true → s.serverProcess.isSome = true) :
    stop_server (stop_server s) = stop_server s
    ∧ (stop_server (stop_server s)).serverRunning = false := by
  rcases hp : s.serverProcess with _ | p
  · have hr : s.serverRunning = false := by
      cases hrs : s.serverRunning
      · rfl
      · have hcontra := hinv hrs
        rw [hp] at hcontra
        simp at hcontra
    constructor
    · simp [stop_server, hp]
    · simp [stop_server, hp, hr]
  · constructor
    · simp [stop_server, hp]
    · simp [stop_server, hp]

/-- Witness for C8 at a started, running state. -/
theorem c8_witness :
    stop_server (stop_server ⟨some ⟨false⟩, true⟩) = stop_server ⟨some ⟨false⟩, true⟩
    ∧ (stop_server (stop_server ⟨some ⟨false⟩, true⟩)).serverRunning = false :=
  c8_stop_idempotent ⟨some ⟨false⟩, true⟩ (fun _ => rfl)

/-- Claim C9: `is_database_query` matches its keywords as raw substrings of
the lowercased message, not as whole words: "the machine is on standby"
matches solely through the keyword `db` occurring inside "standby", and in
general the check is true exactly when some keyword occurs as a contiguous
substring. -/
theorem c9_substring_matching :
    is_database_query "the machine is on standby" = true
    ∧ "db" ∈ db_keywords
    ∧ (∀ k ∈ db_keywords, k ≠ "db" → str_contains (py_lower "the machine is on standby") k = false)
    ∧ (∀ msg : String, is_database_query msg = true ↔
        ∃ k ∈ db_keywords, List.IsInfix k.data (py_lower msg).data) := by
  refine ⟨by decide, by decide, by decide, ?_⟩
  intro msg
  unfold is_database_query
  rw [List.any_eq_true]
  constructor
  · rintro ⟨k, hk, hc⟩
    exact ⟨k, hk, (str_contains_iff _ _).mp hc⟩
  · rintro ⟨k, hk, hc⟩
    exact ⟨k, hk, (str_contains_iff _ _).mpr hc⟩

/-- A persistence environment whose direct queries all succeed. -/
def db_ok : DbEnv :=
  { connect := Except.ok ()
    sessionCount := Except.ok 3
    messageCount := Except.ok 7
    recentActivity := Except.ok [("2026-10-10", 2)]
    activeSessions := Except.ok [("abcdefgh-1234", 5, "2026-10-10 12:00:00")] }

/-- Environment whose subprocess answers the request carrying id 1 with a
response line that parses to an envelope tagged id 999 and carrying a
`result` field. -/
def env_c3 : Env :=
  { hasProcess := true
    hasStdin := true
    serverRunning := true
    wire := fun req =>
      match req with
      | JVal.jobj fs =>
        match jlookup "id" fs with
        | some (JVal.jint i) => if i == 1 then Except.ok (some "RESP") else Except.ok none
        | _ => Except.ok none
      | _ => Except.ok none
    jsonParse := fun s =>
      if s == "RESP" then
        Except.ok (JVal.jobj
          [("jsonrpc", JVal.jstr "2.0"), ("id", JVal.jint 999), ("result", JVal.jint 42)])
      else Except.error "JSONDecodeError"
    llm := fun _ => Except.error "unused"
    parseOllama := fun _ => Except.error "unused"
    db := db_ok }

/-- Counterexample to claim C3: the tool-call request is sent with id 1, the
only response line delivered parses to an envelope tagged id 999, yet the
client unwraps and accepts its `result` (42) instead of rejecting the
mismatched id. -/
theorem c3_counterexample :
    call_mcp_tool env_c3 "query" [("sql", JVal.jstr "SELECT 1"), ("values", JVal.jarr [])] 0
      = (Except.ok (some (JVal.jint 42)), 1,
         [Event.toolCall "query" [("sql", JVal.jstr "SELECT 1"), ("values", JVal.jarr [])]])
    ∧ env_c3.jsonParse "RESP"
      = Except.ok (JVal.jobj
          [("jsonrpc", JVal.jstr "2.0"), ("id", JVal.jint 999), ("result", JVal.jint 42)])
    ∧ (999 : Int) ≠ 1 := by
  refine ⟨rfl, rfl, by decide⟩

/-- Environment whose subprocess always delivers one fixed line, parsed to an
envelope whose id is computed from the raw line text and whose `result`
payload is `v`; varying the line varies only the response id. -/
def resp_env (v : JVal) (line : String) : Env :=
  { hasProcess := true
    hasStdin := true
    serverRunning := true
    wire := fun _ => Except.ok (some line)
    jsonParse := fun s => Except.ok (JVal.jobj
      [("jsonrpc", JVal.jstr "2.0"), ("id", JVal.jint (s.length : Int)), ("result", v)])
    llm := fun _ => Except.error "unused"
    parseOllama := fun _ => Except.error "unused"
    db := db_ok }

/-- Amended claim C3: the client never inspects the response id — for every
result payload and every pair of response lines (hence every pair of
response ids), `_call_mcp_tool` accepts and unwraps the same answer; a
response object is accepted based solely on the presence of a `result`
field. -/
theorem c3_amended_id_ignored (v : JVal) (line line' : String) (name : String)
    (args : List (String × JVal)) (n : Nat) :
    call_mcp_tool (resp_env v line) name args n = call_mcp_tool (resp_env v line') name args n := by
  have hcong : unwrap_tool_result (resp_env v line) = unwrap_tool_result (resp_env v line') := by
    unfold unwrap_tool_result resp_env
    rfl
  rcases hu : unwrap_tool_result (resp_env v line') v (n + 1) with ⟨r, m, t⟩
  have hu1 : unwrap_tool_result (resp_env v line) v (n + 1) = (r, m, t) := by rw [hcong]; exact hu
  unfold call_mcp_tool send_mcp_request
  simp only [resp_env] at hu hu1
  rcases r with e | a
  · simp [resp_env, M.tryCatch, M.bind, M.nextId, M.emit, M.pure, M.lift, Bind.bind,
      jlookup, denull, hu, hu1]
  · simp [resp_env, M.tryCatch, M.bind, M.nextId, M.emit, M.pure, M.lift, Bind.bind,
      jlookup, denull, hu, hu1]

/-- Environment in which SQL generation succeeds (status 200, clean
candidate) but the subprocess round trip yields nothing, so the query tool
call fails. -/
def env_c4 : Env :=
  { hasProcess := true
    hasStdin := true
    serverRunning := true
    wire := fun _ => Except.ok none
    jsonParse := fun _ => Except.error "JSONDecodeError"
    llm := fun _ => Except.ok ⟨200⟩
    parseOllama := fun _ => Except.ok "SELECT COUNT(*) FROM messages"
    db := db_ok }

/-- Counterexample to claim C4: SQL generation succeeds but the query tool
call fails (no response line), and `execute_database_query` returns the
user-facing "No results found" message instead of proceeding to the canned
statistics report — the trace shows no statistics tool calls follow, and
the returned text is not the empty-report message either. -/
theorem c4_counterexample :
    execute_database_query env_c4 (some "count my messages") 0
      = (Except.ok "❌ No results found for: \"count my messages\"", 1,
         [Event.llmCall "count my messages",
          Event.toolCall "query"
            [("sql", JVal.jstr "SELECT COUNT(*) FROM messages"), ("values", JVal.jarr [])]])
    ∧ "❌ No results found for: \"count my messages\"" ≠ no_mcp_results_msg := by
  refine ⟨rfl, by decide⟩

/-- Amended claim C4: whenever SQL generation succeeds but the query tool
call yields nothing (response absent or without a usable result), the
router returns the explicit "❌ No results found" message for the question
— the same message as for an empty result — and does not proceed to the
canned statistics fallback; the canned report is reached only when the
metadata and SQL stages produce no answer at all. -/
theorem c4_amended_tool_failure_reported (env : Env) (q : String) (n : Nat)
    (resp : LlmResponse) (raw : String)
    (hrun : env.serverRunning = true)
    (hq : (q.length != 0 && (py_strip q).length != 0) = true)
    (hmeta : is_metadata_query q = false)
    (h1 : env.llm q = Except.ok resp)
    (h2 : resp.statusCode = 200)
    (h3 : env.parseOllama resp = Except.ok raw)
    (hsafe : sql_safety_ok (fence_strip (py_strip raw)) = true)
    (hw : ∀ req, env.wire req = Except.ok none) :
    execute_database_query env (some q) n
      = (Except.ok ("❌ No results found for: \"" ++ q ++ "\""), n + 1,
         [Event.llmCall q,
          Event.toolCall "query"
            [("sql", JVal.jstr (fence_strip (py_strip raw))), ("values", JVal.jarr [])]]) := by
  have hstage := sql_stage_no_result env q n resp raw h1 h2 h3 hsafe hw
  have hnlq := hnlq_of_stage env q n _ _ _ hmeta hstage
  refine execute_custom env q n _ _ _ hrun hq hnlq ?_
  have hq1 : ("\"" : String).length = 1 := rfl
  simp [String.length_append, hq1]

/-- Witness for the amended C4 at a concrete environment and question. -/
theorem c4_amended_witness :
    execute_database_query env_c4 (some "count my messages") 0
      = (Except.ok ("❌ No results found for: \"" ++ "count my messages" ++ "\""), 1,
         [Event.llmCall "count my messages",
          Event.toolCall "query"
            [("sql", JVal.jstr (fence_strip (py_strip "SELECT COUNT(*) FROM messages"))),
             ("values", JVal.jarr [])]]) :=
  c4_amended_tool_failure_reported env_c4 "count my messages" 0 ⟨200⟩
    "SELECT COUNT(*) FROM messages" rfl rfl rfl rfl rfl rfl rfl (fun _ => rfl)

/-- Claim C6: whenever the subprocess is not running (for example the
launcher was missing so start never succeeded), `execute_database_query`
returns the direct-persistence analysis report for every question, and —
when the direct queries succeed — that report ends with the degraded-mode
marker line. -/
theorem c6_degraded_mode (env : Env) (q? : Option String) (n : Nat)
    (sc mc : Int) (ra : List (String × Int)) (asn : List (String × Int × String))
    (hrun : env.serverRunning = false)
    (hc : env.db.connect = Except.ok ())
    (hs : env.db.sessionCount = Except.ok sc)
    (hm : env.db.messageCount = Except.ok mc)
    (hra : env.db.recentActivity = Except.ok ra)
    (ha : env.db.activeSessions = Except.ok asn) :
    execute_database_query env q? n = (Except.ok (basic_database_analysis env.db), n, [])
    ∧ ∃ p, basic_database_analysis env.db = p ++ basic_mode_marker := by
  refine ⟨execute_not_running env q? n hrun, ?_⟩
  have hval : basic_database_analysis env.db =
      py_join "\n"
        (((["📊 **Total Sessions:** " ++ toString sc, "💬 **Total Messages:** " ++ toString mc]
           ++ (if ra.isEmpty then []
               else "\n📅 **Recent Activity (last 7 days):**" ::
                 ra.map (fun p => "  • " ++ p.1 ++ ": " ++ toString p.2 ++ " sessions")))
          ++ (if asn.isEmpty then []
              else "\n🔥 **Most Active Sessions:**" ::
                asn.enum.map (fun p =>
                  "  " ++ toString (p.1 + 1) ++ ". Session " ++ (py_take p.2.1 8 ++ "...") ++ ": " ++
                  toString p.2.2.1 ++ " messages (last active: " ++ p.2.2.2 ++ ")")))
         ++ [basic_mode_marker]) := by
    unfold basic_database_analysis basic_database_analysis_core
    simp [hc, hs, hm, hra, ha, Bind.bind, Except.bind]
  rw [hval, py_join_append_singleton _ _ _ (by simp)]
  exact ⟨_, rfl⟩

/-- Environment for the C6 witness: the subprocess never started and the
persistence store answers directly. -/
def env_c6 : Env :=
  { hasProcess := false
    hasStdin := false
    serverRunning := false
    wire := fun _ => Except.ok none
    jsonParse := fun _ => Except.error "JSONDecodeError"
    llm := fun _ => Except.error "ConnectionError"
    parseOllama := fun _ => Except.error "HTTPException"
    db := db_ok }

/-- Witness for C6 at the question from the spec's scenario. -/
theorem c6_witness :
    execute_database_query env_c6 (some "how many sessions do I have") 0
      = (Except.ok (basic_database_analysis env_c6.db), 0, [])
    ∧ ∃ p, basic_database_analysis env_c6.db = p ++ basic_mode_marker :=
  c6_degraded_mode env_c6 (some "how many sessions do I have") 0 3 7
    [("2026-10-10", 2)] [("abcdefgh-1234", 5, "2026-10-10 12:00:00")]
    rfl rfl rfl rfl rfl rfl

/-- Claim C7: for every question matching the metadata keyword set for which
the metadata handler produces an answer, the router returns that answer,
and no SQL-generation LLM request and no `query` tool call occur. -/
theorem c7_metadata_short_circuits (env : Env) (q : String) (n : Nat) (ans : String)
    (n' : Nat) (t : List Event)
    (hrun : env.serverRunning = true)
    (hq : (q.length != 0 && (py_strip q).length != 0) = true)
    (hmeta : is_metadata_query q = true)
    (hans : handle_metadata_query env q n = (Except.ok (some ans), n', t))
    (hne : ans.length ≠ 0) :
    execute_database_query env (some q) n = (Except.ok ans, n', t)
    ∧ ∀ e ∈ t, (∀ p, e ≠ Event.llmCall p) ∧ (∀ args, e ≠ Event.toolCall "query" args) := by
  constructor
  · exact execute_custom env q n ans n' t hrun hq
      (hnlq_of_metadata env q n ans n' t hmeta hans hne) hne
  · have htr := handle_metadata_query_trace
      (fun e => (∀ p, e ≠ Event.llmCall p) ∧ (∀ args, e ≠ Event.toolCall "query" args))
      env q n (by constructor <;> intro x <;> simp) (by constructor <;> intro x <;> simp)
    rw [hans] at htr
    simpa using htr

/-- Environment for the C7 witness: `list_tables` answers with two table
names delivered through a content text block. -/
def env_c7 : Env :=
  { hasProcess := true
    hasStdin := true
    serverRunning := true
    wire := fun _ => Except.ok (some "L")
    jsonParse := fun s =>
      if s == "L" then
        Except.ok (JVal.jobj
          [("jsonrpc", JVal.jstr "2.0"), ("id", JVal.jint 1),
           ("result", JVal.jobj
             [("content", JVal.jarr [JVal.jobj [("text", JVal.jstr "T")]])])])
      else if s == "T" then
        Except.ok (JVal.jarr [JVal.jstr "sessions", JVal.jstr "messages"])
      else Except.error "JSONDecodeError"
    llm := fun _ => Except.error "unused"
    parseOllama := fun _ => Except.error "unused"
    db := db_ok }

set_option maxRecDepth 100000 in
/-- Witness for C7 on the question "what tables exist". -/
theorem c7_witness :
    execute_database_query env_c7 (some "what tables exist") 0
      = (Except.ok ("📊 **Answer to: \"what tables exist\"**\n\n**Tables in your database:**\n  1. sessions\n  2. messages\n\n💡 *Used MCP list_tables tool*"), 1,
         [Event.toolCall "list_tables" []])
    ∧ ∀ e ∈ [Event.toolCall "list_tables" []],
        (∀ p, e ≠ Event.llmCall p) ∧ (∀ args, e ≠ Event.toolCall "query" args) :=
  c7_metadata_short_circuits env_c7 "what tables exist" 0
    "📊 **Answer to: \"what tables exist\"**\n\n**Tables in your database:**\n  1. sessions\n  2. messages\n\n💡 *Used MCP list_tables tool*"
    1 [Event.toolCall "list_tables" []] rfl rfl rfl rfl (by decide)

/-- Claim C10: with the server running, a `None`, empty, or whitespace-only
question skips the metadata and NL-to-SQL paths entirely: the call behaves
exactly as the canned statistics stage (returning the joined report, or
the no-analysis message when the report is empty, or the direct analysis
if the statistics stage raises), and no LLM request is ever issued. -/
theorem c10_blank_question_stats (env : Env) (q? : Option String) (n : Nat)
    (hrun : env.serverRunning = true)
    (hblank : q? = none ∨ ∃ s, q? = some s ∧ (s.length = 0 ∨ (py_strip s).length = 0)) :
    execute_database_query env q? n
      = (match get_mcp_database_stats env n with
         | (Except.ok results, n', t) =>
           (Except.ok (if results.isEmpty then no_mcp_results_msg else py_join "\n" results), n', t)
         | (Except.error _, n', t) => (Except.ok (basic_database_analysis env.db), n', t))
    ∧ ∀ e ∈ (execute_database_query env q? n).2.2, ∀ p, e ≠ Event.llmCall p := by
  have heq := execute_blank env q? n hrun hblank
  refine ⟨heq, ?_⟩
  have htr := get_mcp_database_stats_trace (fun e => ∀ p, e ≠ Event.llmCall p) env n
    (fun name args p => by simp)
  rw [heq]
  rcases hs : get_mcp_database_stats env n with ⟨r, n', t⟩
  have ht : ∀ e ∈ t, ∀ p, e ≠ Event.llmCall p := by
    intro e he
    apply htr
    rw [hs]
    exact he
  rcases r with e | results
  · simpa using ht
  · simpa using ht

/-- Environment for the C10 witness: the subprocess is running but returns no
response lines, so every canned query yields nothing. -/
def env_c10 : Env :=
  { hasProcess := true
    hasStdin := true
    serverRunning := true
    wire := fun _ => Except.ok none
    jsonParse := fun _ => Except.error "JSONDecodeError"
    llm := fun _ => Except.error "unused"
    parseOllama := fun _ => Except.error "unused"
    db := db_ok }

/-- Witness for C10 at a `None` question. -/
theorem c10_witness :
    execute_database_query env_c10 none 0
      = (match get_mcp_database_stats env_c10 0 with
         | (Except.ok results, n', t) =>
           (Except.ok (if results.isEmpty then no_mcp_results_msg else py_join "\n" results), n', t)
         | (Except.error _, n', t) => (Except.ok (basic_database_analysis env_c10.db), n', t))
    ∧ ∀ e ∈ (execute_database_query env_c10 none 0).2.2, ∀ p, e ≠ Event.llmCall p :=
  c10_blank_question_stats env_c10 none 0 rfl (Or.inl rfl)

/-- Claim C5: `_format_query_results` renders an empty result set as
"No data found."; exactly one row with exactly one column as a labeled
scalar carrying that value; and any other shape as at most 10 bullet rows
of comma-joined `key: value` pairs in received order, appending a
remainder count when more than 10 rows exist. -/
theorem c5_formatter_shapes (rows : List (List (String × JVal))) :
    format_query_results (some (JVal.jarr (rows.map JVal.jobj))) =
      match rows with
      | [] => "No data found."
      | [[kv]] => "**Result:** " ++ pyStr kv.2
      | _ =>
        py_join "\n" ((rows.take 10).map
          (fun row => "  • " ++ py_join ", " (row.map (fun p => p.1 ++ ": " ++ pyStr p.2))) ++
          (if rows.length > 10 then
            ["  ... and " ++ toString (rows.length - 10) ++ " more rows"] else [])) := by
  rcases rows with _ | ⟨r, rest⟩
  · rfl
  · rcases rest with _ | ⟨r2, rest2⟩
    · rcases r with _ | ⟨kv, rr⟩
      · rfl
      · rcases rr with _ | ⟨kv2, rr2⟩
        · rcases kv with ⟨k, v⟩
          rfl
        · rfl
    · have h1 : (rest2.length + 1 + 1 == 1) = false := by
        simp [beq_eq_false_iff_ne]
      have h2 : (render_row ∘ JVal.jobj) =
          (fun row : List (String × JVal) =>
            "  • " ++ py_join ", " (List.map (fun kv => kv.1 ++ ": " ++ pyStr kv.2) row)) := by
        funext row
        rfl
      simp only [format_query_results, format_query_results_core, extract_query_results,
        render_row, pySlice10, pyLen, pyIndex0, JVal.truthy, List.map_take, List.map_map,
        List.length_map, Bind.bind, Except.bind, Pure.pure, Except.pure, Function.comp,
        List.map_cons, List.length_cons, List.take_succ_cons, List.isEmpty_cons, h1]
      simp only [h2]
      by_cases h3 : 10 < rest2.length + 1 + 1
      · simp [h3]
      · simp [h3]

/-- Environment for the C1 witness: the LLM answers with a fenced SELECT
statement. -/
def env_c1 : Env :=
  { hasProcess := true
    hasStdin := true
    serverRunning := true
    wire := fun _ => Except.ok none
    jsonParse := fun _ => Except.error "JSONDecodeError"
    llm := fun _ => Except.ok ⟨200⟩
    parseOllama := fun _ => Except.ok "```sql\nSELECT * FROM sessions\n```"
    db := db_ok }

/-- Witness for C1 at a concrete fenced candidate. -/
theorem c1_witness :
    (generate_sql_from_question env_c1 "show all sessions" 0
        = (Except.ok (some (fence_strip (py_strip "```sql\nSELECT * FROM sessions\n```"))), 0,
           [Event.llmCall "show all sessions"])
      ∨ generate_sql_from_question env_c1 "show all sessions" 0
        = (Except.ok (none : Option String), 0, [Event.llmCall "show all sessions"]))
    ∧ (generate_sql_from_question env_c1 "show all sessions" 0
        = (Except.ok (some (fence_strip (py_strip "```sql\nSELECT * FROM sessions\n```"))), 0,
           [Event.llmCall "show all sessions"])
      ↔ (str_starts_with (py_upper (fence_strip (py_strip "```sql\nSELECT * FROM sessions\n```"))) "SELECT" = true
         ∧ ¬ List.IsInfix "DROP".data (py_upper (fence_strip (py_strip "```sql\nSELECT * FROM sessions\n```"))).data
         ∧ ¬ List.IsInfix "DELETE".data (py_upper (fence_strip (py_strip "```sql\nSELECT * FROM sessions\n```"))).data
         ∧ ¬ List.IsInfix "UPDATE".data (py_upper (fence_strip (py_strip "```sql\nSELECT * FROM sessions\n```"))).data
         ∧ ¬ List.IsInfix "INSERT".data (py_upper (fence_strip (py_strip "```sql\nSELECT * FROM sessions\n```"))).data
         ∧ fence_strip (py_strip "```sql\nSELECT * FROM sessions\n```") ≠ "INVALID")) :=
  c1_safety_filter env_c1 "show all sessions" 0 ⟨200⟩ "```sql\nSELECT * FROM sessions\n```"
    rfl rfl rfl
